import Mathlib

/-!
Shallow embedding of the GooglePlaces-MCP repository (TypeScript) in Lean 4.

The repository has three layers:
  * the normalization adapter `PlacesService` (src/services/placesService.ts,
    canonical field-mask revision): outbound request shaping and inbound
    response normalization (`formatSearchResults`, `formatPlaceDetails`);
  * the HTTP shell: Express router (src/routes/places.ts) plus middleware
    (src/middleware/validation.ts, src/middleware/errorHandler.ts);
  * the tool-protocol (MCP) shell: `TalkForceMCPServer` (src/index.ts).

JavaScript values that may be absent (`undefined`) are modelled with
`Option`; JavaScript truthiness on strings/numbers (where `""` and `0` are
falsy) is modelled by the explicit `jsOr*` helpers below.  Numbers are
modelled with `Rat` (JS numbers minus NaN/Infinity, none of which the code
manipulates arithmetically).
-/

/-- JS `a || d` for an optional string `a` with default `d`: `undefined`
and `""` are falsy. -/
def jsOrStr (a : Option String) (d : String) : String :=
  match a with
  | none => d
  | some s => if s = "" then d else s

/-- JS `a || b` where both operands are optional strings: returns `a` when
it is truthy (present and non-empty), otherwise `b` as-is. -/
def jsOrOptStr (a b : Option String) : Option String :=
  match a with
  | none => b
  | some s => if s = "" then b else some s

/-- JS `a || d` for an optional number `a` with default `d`: `undefined`
and `0` are falsy. -/
def jsOrRat (a : Option Rat) (d : Rat) : Rat :=
  match a with
  | none => d
  | some x => if x = 0 then d else x

/-- String interpolation of a possibly-undefined JS value: `undefined`
renders as the literal text "undefined" inside a template literal. -/
def jsInterp (a : Option String) : String :=
  match a with
  | none => "undefined"
  | some s => s

/-- Character-list prefix test (auxiliary for substring containment). -/
def isPrefixL : List Char → List Char → Bool
  | [], _ => true
  | _ :: _, [] => false
  | p :: ps, c :: cs => p = c && isPrefixL ps cs

/-- Character-list substring test (auxiliary for substring containment). -/
def subL (pat : List Char) : List Char → Bool
  | [] => isPrefixL pat []
  | c :: cs => isPrefixL pat (c :: cs) || subL pat cs

/-- JS `s.includes(pat)`: substring containment. -/
def strIncludes (s pat : String) : Bool :=
  subL pat.data s.data

/-- JS `s.trim()`: strip leading and trailing whitespace (kernel-reducible
model of `String.trim`). -/
def jsTrim (s : String) : String :=
  String.mk
    (((s.data.dropWhile Char.isWhitespace).reverse.dropWhile
      Char.isWhitespace).reverse)

/-- A geographic coordinate pair, as used throughout the repository
(`{lat: number, lng: number}`). -/
structure Location where
  lat : Rat
  lng : Rat
deriving DecidableEq, Repr

/-! ## Provider response shapes (Google Places API v1, as consumed) -/

/-- Provider `displayName` object (`{ text?: string }`). -/
structure ProviderDisplayName where
  text : Option String
deriving DecidableEq, Repr

/-- Provider `location` object (`{ latitude?, longitude? }`). -/
structure ProviderLatLng where
  latitude : Option Rat
  longitude : Option Rat
deriving DecidableEq, Repr

/-- Provider `currentOpeningHours` object. -/
structure ProviderOpeningHours where
  openNow : Option Bool
  weekdayDescriptions : Option (List String)
deriving DecidableEq, Repr

/-- Provider review `text` object (`{ text?: string }`). -/
structure ProviderReviewText where
  text : Option String
deriving DecidableEq, Repr

/-- Provider review `authorAttribution` object. -/
structure ProviderAuthorAttribution where
  displayName : Option String
deriving DecidableEq, Repr

/-- A provider review as consumed by `formatPlaceDetails`. -/
structure ProviderReview where
  rating : Option Rat
  text : Option ProviderReviewText
  authorAttribution : Option ProviderAuthorAttribution
  publishTime : Option String
deriving DecidableEq, Repr

/-- A provider photo as consumed by `formatPlaceDetails` (the canonical
adapter revision reads `photo.name || photo.photoReference`). -/
structure ProviderPhoto where
  name : Option String
  photoReference : Option String
deriving DecidableEq, Repr

/-- A provider place object, with every field the adapter reads.  All
fields are optional: the provider may omit any of them. -/
structure ProviderPlace where
  id : Option String
  name : Option String
  displayName : Option ProviderDisplayName
  formattedAddress : Option String
  location : Option ProviderLatLng
  rating : Option Rat
  priceLevel : Option Rat
  types : Option (List String)
  currentOpeningHours : Option ProviderOpeningHours
  nationalPhoneNumber : Option String
  websiteUri : Option String
  reviews : Option (List ProviderReview)
  photos : Option (List ProviderPhoto)
deriving DecidableEq, Repr

/-- The provider place object with every field absent. -/
def emptyProviderPlace : ProviderPlace :=
  ⟨none, none, none, none, none, none, none, none, none, none, none, none, none⟩

/-! ## Normalized shapes (the adapter's output types)

The TypeScript interface declares `id : string`, but the runtime value
`place.id || place.name?.split('/').pop()` is `undefined` when both
sources are absent, so the model gives `id` type `Option String`. -/

/-- The `PlaceSearchResult` shape as produced by `formatSearchResults`. -/
structure PlaceSearchResult where
  id : Option String
  name : String
  address : String
  location : Location
  rating : Option Rat
  priceLevel : Option Rat
  types : List String
  isOpen : Option Bool
deriving DecidableEq, Repr

/-- A normalized review, as re-shaped by `formatPlaceDetails`:
`{rating, text, author, time}` with `text` and `author` defaulted and
`rating`/`time` passed through. -/
structure ShapedReview where
  rating : Option Rat
  text : String
  author : String
  time : Option String
deriving DecidableEq, Repr

/-- The `PlaceDetails` shape: `PlaceSearchResult` plus the detail-only fields.  The
TypeScript interface declares `openingHours`, `reviews` and `photos`
optional, hence `Option` here; `formatPlaceDetails` in fact always fills
them (see claim C10). -/
structure PlaceDetails where
  id : Option String
  name : String
  address : String
  location : Location
  rating : Option Rat
  priceLevel : Option Rat
  types : List String
  isOpen : Option Bool
  phoneNumber : Option String
  website : Option String
  openingHours : Option (List String)
  reviews : Option (List ShapedReview)
  photos : Option (List String)
deriving DecidableEq, Repr

/-! ## Inbound normalization (`PlacesService.formatSearchResults` /
`PlacesService.formatPlaceDetails`) -/

/-- JS `s.split(sep)` on a character list: the result is never empty;
`"".split('/')` is `[""]` and a trailing separator yields a trailing
empty segment. -/
def splitOnChar (sep : Char) : List Char → List (List Char)
  | [] => [[]]
  | c :: cs =>
    let rest := splitOnChar sep cs
    if c = sep then [] :: rest
    else
      match rest with
      | [] => [[c]]
      | h :: t => (c :: h) :: t

/-- JS `name?.split('/').pop()`: the trailing path segment of an optional
resource name (`pop` of a never-empty array is its last element). -/
def lastSegment (name : Option String) : Option String :=
  match name with
  | none => none
  | some n => ((splitOnChar (Char.ofNat 47) n.data).getLast?).map String.mk

/-- The per-place body of `formatSearchResults` (the arrow function inside
`places.map(...)`):
`id: place.id || place.name?.split('/').pop()`,
`name: place.displayName?.text || 'Unknown'`,
`address: place.formattedAddress || 'Address not available'`,
`location: {lat: place.location?.latitude || 0, lng: place.location?.longitude || 0}`,
`rating`, `priceLevel` passed through, `types: place.types || []`,
`isOpen: place.currentOpeningHours?.openNow`. -/
def formatSearchResult (place : ProviderPlace) : PlaceSearchResult :=
  { id := jsOrOptStr place.id (lastSegment place.name)
    name := jsOrStr (place.displayName.bind (·.text)) "Unknown"
    address := jsOrStr place.formattedAddress "Address not available"
    location :=
      { lat := jsOrRat (place.location.bind (·.latitude)) 0
        lng := jsOrRat (place.location.bind (·.longitude)) 0 }
    rating := place.rating
    priceLevel := place.priceLevel
    types := place.types.getD []
    isOpen := place.currentOpeningHours.bind (·.openNow) }

/-- Embedding of `PlacesService.formatSearchResults`: maps the per-place normalization
over the provider list. -/
def formatSearchResults (places : List ProviderPlace) : List PlaceSearchResult :=
  places.map formatSearchResult

/-- The review re-shaping arrow function inside `formatPlaceDetails`:
`{rating: review.rating, text: review.text?.text || '',
author: review.authorAttribution?.displayName || 'Anonymous',
time: review.publishTime}`. -/
def shapeReview (review : ProviderReview) : ShapedReview :=
  { rating := review.rating
    text := jsOrStr (review.text.bind (·.text)) ""
    author := jsOrStr (review.authorAttribution.bind (·.displayName)) "Anonymous"
    time := review.publishTime }

/-- The photo-to-URL arrow function inside `formatPlaceDetails` (canonical
revision): `const photoName = photo.name || photo.photoReference;` then the
template literal
`https://places.googleapis.com/v1/<photoName>/media?maxHeightPx=400&maxWidthPx=400&key=<apiKey>`. -/
def photoUrl (apiKey : String) (photo : ProviderPhoto) : String :=
  "https://places.googleapis.com/v1/"
    ++ jsInterp (jsOrOptStr photo.name photo.photoReference)
    ++ "/media?maxHeightPx=400&maxWidthPx=400&key=" ++ apiKey

/-- Embedding of `PlacesService.formatPlaceDetails`: spreads
`formatSearchResults([place])[0]` and adds the detail-only fields.
`place.currentOpeningHours?.weekdayDescriptions || []`,
`place.reviews?.slice(0, 5).map(...) || []`,
`place.photos?.slice(0, 5).map(...) || []` — in JS each expression always
yields an array, hence `some (...)` here. -/
def formatPlaceDetails (apiKey : String) (place : ProviderPlace) : PlaceDetails :=
  let baseInfo := formatSearchResult place
  { id := baseInfo.id
    name := baseInfo.name
    address := baseInfo.address
    location := baseInfo.location
    rating := baseInfo.rating
    priceLevel := baseInfo.priceLevel
    types := baseInfo.types
    isOpen := baseInfo.isOpen
    phoneNumber := place.nationalPhoneNumber
    website := place.websiteUri
    openingHours :=
      some ((place.currentOpeningHours.bind (·.weekdayDescriptions)).getD [])
    reviews :=
      some ((place.reviews.map (fun l => (l.take 5).map shapeReview)).getD [])
    photos :=
      some ((place.photos.map (fun l => (l.take 5).map (photoUrl apiKey))).getD []) }

/-! ## Outbound request shaping (`PlacesService.searchPlaces` /
`PlacesService.findNearbyPlaces` / `PlacesService.getPlaceDetails`) -/

/-- Internal `SearchParams` (`{query, location?, radius?, type?}`). -/
structure SearchParams where
  query : String
  location : Option Location
  radius : Option Rat
  type : Option String
deriving DecidableEq, Repr

/-- A location-bias/restriction circle (`{center, radius}`). -/
structure BiasCircle where
  center : Location
  radius : Rat
deriving DecidableEq, Repr

/-- The outbound text-search request built by `searchPlaces`. -/
structure TextSearchRequest where
  textQuery : String
  maxResultCount : Nat
  locationBias : Option BiasCircle
  includedType : Option String
deriving DecidableEq, Repr

/-- The outbound nearby-search request built by `findNearbyPlaces`. -/
structure NearbySearchRequest where
  includedTypes : List String
  maxResultCount : Nat
  locationRestriction : BiasCircle
deriving DecidableEq, Repr

/-- Request shaping inside `searchPlaces`:
`const { query, location, radius = 5000, type } = params;` then
`{textQuery: query, maxResultCount: 10}`, `request.locationBias = {circle:
{center, radius}}` only `if (location)`, and `request.includedType = type`
only `if (type)` (so an empty-string type, being falsy, attaches nothing). -/
def buildTextSearchRequest (params : SearchParams) : TextSearchRequest :=
  let radius := params.radius.getD 5000
  { textQuery := params.query
    maxResultCount := 10
    locationBias :=
      params.location.map (fun loc =>
        { center := loc, radius := radius })
    includedType :=
      match params.type with
      | none => none
      | some t => if t = "" then none else some t }

/-- Request shaping inside `findNearbyPlaces` (radius is a defaulted
parameter, `radius: number = 5000`; `none` models an omitted argument):
`{includedTypes: [type], maxResultCount: 10, locationRestriction: {circle:
{center, radius}}}`. -/
def buildNearbyRequest (location : Location) (type : String)
    (radius : Option Rat) : NearbySearchRequest :=
  let r := radius.getD 5000
  { includedTypes := [type]
    maxResultCount := 10
    locationRestriction := { center := location, radius := r } }

/-- A JS `Error`-like value as seen by the error handler: `message` and
`code` may be absent (`error.message?`, `error.code`), `name` is the
constructor name (`"Error"` for `new Error(...)`). -/
structure JsError where
  message : Option String
  code : Option String
  name : String
deriving DecidableEq, Repr

/-- The provider `searchText`/`searchNearby` response as consumed:
`response[0].places || []`. -/
structure ProviderPlacesResponse where
  places : Option (List ProviderPlace)
deriving DecidableEq, Repr

/-- Embedding of `PlacesService.searchPlaces` from the provider call on:
the provider outcome is passed in as an oracle; a provider failure is
caught, and re-raised as `new Error('Failed to search places')`; a
provider success is normalized with `formatSearchResults(response[0].places
|| [])`. -/
def searchPlaces (provider : Except JsError ProviderPlacesResponse) :
    Except JsError (List PlaceSearchResult) :=
  match provider with
  | .error _ => .error ⟨some "Failed to search places", none, "Error"⟩
  | .ok resp => .ok (formatSearchResults (resp.places.getD []))

/-- Embedding of `PlacesService.findNearbyPlaces` from the provider call
on: a provider failure is re-raised as
`new Error('Failed to find nearby places')`. -/
def findNearbyPlaces (provider : Except JsError ProviderPlacesResponse) :
    Except JsError (List PlaceSearchResult) :=
  match provider with
  | .error _ => .error ⟨some "Failed to find nearby places", none, "Error"⟩
  | .ok resp => .ok (formatSearchResults (resp.places.getD []))

/-- Embedding of `PlacesService.getPlaceDetails` from the provider call
on: a provider failure is re-raised as
`new Error('Failed to get place details')`; a provider success is
normalized with `formatPlaceDetails(place)`. -/
def getPlaceDetails (apiKey : String)
    (provider : Except JsError ProviderPlace) :
    Except JsError PlaceDetails :=
  match provider with
  | .error _ => .error ⟨some "Failed to get place details", none, "Error"⟩
  | .ok place => .ok (formatPlaceDetails apiKey place)

/-! ## HTTP middleware (src/middleware/validation.ts,
src/middleware/errorHandler.ts)

The `typeof`-mismatch branches of the validators (non-number `lat`,
non-string `query`, ...) are discharged statically by the typed model;
the value-level checks (truthiness, ranges, trim) are embedded exactly. -/

/-- Raw body of `POST /api/places/nearby`, typed.  `location` and `type`
are `Option` because the validator must be able to reject their absence. -/
structure NearbyBody where
  location : Option Location
  type : Option String
  radius : Option Rat
deriving DecidableEq, Repr

/-- Embedding of the helper `isValidLocation`: numeric `lat` in
[-90, 90] and numeric `lng` in [-180, 180] (the object/number `typeof`
checks hold by typing). -/
def isValidLocation (location : Location) : Bool :=
  location.lat ≥ -90 && location.lat ≤ 90 &&
    location.lng ≥ -180 && location.lng ≤ 180

/-- Embedding of `validateSearchParams`: returns the 400 error message of
the first failing check, or `none` when the request passes to the route
handler.  `!query || ... || query.trim().length === 0` collapses to
`query.trim = ""` on typed input; `if (location)` is object truthiness
(present = truthy). -/
def validateSearchParams (body : SearchParams) : Option String :=
  if jsTrim body.query = "" then
    some "Query parameter is required and must be a non-empty string"
  else if (match body.location with
           | some loc => !isValidLocation loc
           | none => false) then
    some "Location must have valid lat and lng properties"
  else if (match body.radius with
           | some r => decide (r ≤ 0) || decide (r > 50000)
           | none => false) then
    some "Radius must be a number between 1 and 50000 meters"
  else if (match body.type with
           | some t => decide (jsTrim t = "")
           | none => false) then
    some "Type must be a non-empty string if provided"
  else
    none

/-- Embedding of `validateLocationParams` (for `POST /api/places/nearby`):
`!location || !isValidLocation(location)` rejects an absent or
out-of-range location; `!type || ... || type.trim().length === 0` rejects
an absent, empty or blank type; radius bounds as in search. -/
def validateLocationParams (body : NearbyBody) : Option String :=
  if (match body.location with
      | some loc => !isValidLocation loc
      | none => true) then
    some "Valid location with lat and lng properties is required"
  else if (match body.type with
           | some t => decide (jsTrim t = "")
           | none => true) then
    some "Type parameter is required and must be a non-empty string"
  else if (match body.radius with
           | some r => decide (r ≤ 0) || decide (r > 50000)
           | none => false) then
    some "Radius must be a number between 1 and 50000 meters"
  else
    none

/-- A structured HTTP error response (`status` plus the JSON body's
`error` and `code` fields). -/
structure HttpError where
  status : Nat
  error : String
  code : String
deriving DecidableEq, Repr

/-- Embedding of `errorHandler` (src/middleware/errorHandler.ts): the
classification chain quota → auth → validation → default.
`error.message?.includes(...)` is `false` when `message` is absent. -/
def errorHandler (e : JsError) : HttpError :=
  if strIncludes (e.message.getD "") "quota" || e.code == some "OVER_QUERY_LIMIT" then
    { status := 429
      error := "API quota exceeded. Please try again later."
      code := "QUOTA_EXCEEDED" }
  else if strIncludes (e.message.getD "") "API key" || e.code == some "REQUEST_DENIED" then
    { status := 401
      error := "Invalid API key configuration."
      code := "INVALID_API_KEY" }
  else if e.name = "ValidationError" then
    { status := 400
      error := e.message.getD ""
      code := "VALIDATION_ERROR" }
  else
    { status := 500
      error := "Internal server error occurred."
      code := "INTERNAL_ERROR" }

/-! ## HTTP router (src/routes/places.ts)

Express matches routes in registration order; a `:name` segment matches
any single path segment.  The source registers, in order:
`POST /search`, `GET /:placeId`, `POST /nearby`, `GET /types`. -/

/-- HTTP method. -/
inductive Method where
  | get
  | post
deriving DecidableEq, Repr

/-- A path-pattern segment: a literal or a `:name` parameter. -/
inductive PathSeg where
  | lit (s : String)
  | par (name : String)
deriving DecidableEq, Repr

/-- The handler each registered route runs. -/
inductive RouteHandler where
  | searchH
  | placeDetailH
  | nearbyH
  | typesH
deriving DecidableEq, Repr

/-- The places router's route table, in source registration order. -/
def placesRoutes : List (Method × List PathSeg × RouteHandler) :=
  [ (.post, [.lit "search"], .searchH),
    (.get,  [.par "placeId"], .placeDetailH),
    (.post, [.lit "nearby"], .nearbyH),
    (.get,  [.lit "types"], .typesH) ]

/-- Whether a pattern segment matches a concrete path segment. -/
def segMatches : PathSeg → String → Bool
  | .lit s, x => s = x
  | .par _, _ => true

/-- Whether a route pattern matches a concrete path. -/
def pathMatches : List PathSeg → List String → Bool
  | [], [] => true
  | p :: ps, x :: xs => segMatches p x && pathMatches ps xs
  | _, _ => false

/-- Express dispatch: the handler of the first registered route whose
method and pattern match. -/
def dispatchRoute (m : Method) (path : List String) : Option RouteHandler :=
  (placesRoutes.find? (fun r => r.1 == m && pathMatches r.2.1 path)).map
    (fun r => r.2.2)

/-- Parameter extraction for a matched route pattern. -/
def extractParams : List PathSeg → List String → List (String × String)
  | .par n :: ps, x :: xs => (n, x) :: extractParams ps xs
  | .lit _ :: ps, _ :: xs => extractParams ps xs
  | _, _ => []

/-- The static place-type enumeration returned by `GET /api/places/types`
and by the `get_place_types` tool (the two copies in the source are
identical). -/
def commonTypes : List String :=
  [ "restaurant", "gas_station", "hospital", "pharmacy", "bank", "atm",
    "shopping_mall", "grocery_store", "hotel", "tourist_attraction",
    "park", "school", "university", "gym", "movie_theater", "library",
    "church", "mosque", "synagogue", "police", "fire_station",
    "post_office", "car_rental", "car_repair", "beauty_salon",
    "hair_care", "dentist", "doctor", "veterinary_care" ]

/-! ## HTTP route pipelines (validator, then handler, then either the
success envelope or `next(error)` into `errorHandler`) -/

/-- Outcome of one HTTP request: a validator 400, an error forwarded to
`errorHandler`, or the route's success envelope payload. -/
inductive RouteOutcome (α : Type) where
  | clientError (status : Nat) (error : String)
  | failure (h : HttpError)
  | success (a : α)
deriving DecidableEq, Repr

/-- Success envelope of `POST /api/places/search`:
`{success: true, data, count, message}`. -/
structure SearchSuccess where
  data : List PlaceSearchResult
  count : Nat
  message : String
deriving DecidableEq, Repr

/-- Embedding of the `POST /api/places/search` pipeline:
`validateSearchParams` middleware, then the route handler calling
`placesService.searchPlaces` (provider outcome passed as an oracle); a
thrown error goes through `next(error)` to `errorHandler`. -/
def searchRoute (body : SearchParams)
    (provider : Except JsError ProviderPlacesResponse) :
    RouteOutcome SearchSuccess :=
  match validateSearchParams body with
  | some msg => .clientError 400 msg
  | none =>
    match searchPlaces provider with
    | .error e => .failure (errorHandler e)
    | .ok results =>
      .success
        { data := results
          count := results.length
          message := "Found " ++ toString results.length ++ " places for \""
            ++ body.query ++ "\"" }

/-- Success envelope of `POST /api/places/nearby`. -/
structure NearbySuccess where
  data : List PlaceSearchResult
  count : Nat
  message : String
deriving DecidableEq, Repr

/-- The adapter call the nearby route handler makes after validation:
`const { location, type, radius = 5000 } = req.body;` then
`findNearbyPlaces(location, type, radius)`, whose request shaping is
`buildNearbyRequest`.  (The `getD` defaults for `location`/`type` are
unreachable: validation has already guaranteed both are present.) -/
def httpNearbyRequest (body : NearbyBody) : Option NearbySearchRequest :=
  match validateLocationParams body with
  | some _ => none
  | none =>
    some (buildNearbyRequest (body.location.getD ⟨0, 0⟩) (body.type.getD "")
      (some (body.radius.getD 5000)))

/-- Embedding of the `POST /api/places/nearby` pipeline:
`validateLocationParams` middleware, then the route handler calling
`placesService.findNearbyPlaces`. -/
def nearbyRoute (body : NearbyBody)
    (provider : Except JsError ProviderPlacesResponse) :
    RouteOutcome NearbySuccess :=
  match validateLocationParams body with
  | some msg => .clientError 400 msg
  | none =>
    match findNearbyPlaces provider with
    | .error e => .failure (errorHandler e)
    | .ok results =>
      .success
        { data := results
          count := results.length
          message := "Found " ++ toString results.length ++ " "
            ++ body.type.getD "" ++ " places nearby" }

/-- Success envelope of `GET /api/places/:placeId`:
`{success: true, data, message}`. -/
structure DetailSuccess where
  data : PlaceDetails
  message : String
deriving DecidableEq, Repr

/-- Embedding of the `GET /api/places/:placeId` handler: reject an empty
`placeId` with 400, else call `placesService.getPlaceDetails`. -/
def placeDetailRoute (apiKey : String) (placeId : String)
    (provider : Except JsError ProviderPlace) :
    RouteOutcome DetailSuccess :=
  if placeId = "" then .clientError 400 "Place ID is required"
  else
    match getPlaceDetails apiKey provider with
    | .error e => .failure (errorHandler e)
    | .ok placeDetails =>
      .success
        { data := placeDetails
          message := "Details for " ++ placeDetails.name }

/-- Success envelope of `GET /api/places/types`:
`{success: true, data: commonTypes, message}`, with no provider
involvement. -/
structure TypesSuccess where
  data : List String
  message : String
deriving DecidableEq, Repr

/-- Embedding of the `GET /api/places/types` handler. -/
def typesRoute : TypesSuccess :=
  { data := commonTypes
    message := "Available place types for search" }

/-! ## Tool-protocol shell (`TalkForceMCPServer`, src/index.ts) -/

/-- Raw tool-call arguments (`request.params.arguments`), with every field
any handler reads; absent fields are `none`. -/
structure ToolArgs where
  query : Option String
  location : Option Location
  radius : Option Rat
  type : Option String
  placeId : Option String
deriving DecidableEq, Repr

/-- Empty tool-call arguments. -/
def emptyToolArgs : ToolArgs := ⟨none, none, none, none, none⟩

/-- The place-details projection built by `handleGetPlaceDetails`: every
`PlaceDetails` field copied, but `reviews: placeDetails.reviews?.slice(0, 5)`
and `photos: placeDetails.photos?.slice(0, 3)`. -/
structure McpPlaceDetails where
  id : Option String
  name : String
  address : String
  location : Location
  rating : Option Rat
  priceLevel : Option Rat
  types : List String
  isOpen : Option Bool
  phoneNumber : Option String
  website : Option String
  openingHours : Option (List String)
  reviews : Option (List ShapedReview)
  photos : Option (List String)
deriving DecidableEq, Repr

/-- The `placeDetails` payload object of `handleGetPlaceDetails`. -/
def mcpDetailsPayload (pd : PlaceDetails) : McpPlaceDetails :=
  { id := pd.id
    name := pd.name
    address := pd.address
    location := pd.location
    rating := pd.rating
    priceLevel := pd.priceLevel
    types := pd.types
    isOpen := pd.isOpen
    phoneNumber := pd.phoneNumber
    website := pd.website
    openingHours := pd.openingHours
    reviews := pd.reviews.map (fun l => l.take 5)
    photos := pd.photos.map (fun l => l.take 3) }

/-- The `searchParams` echo object inside the `find_nearby_places`
envelope. -/
structure NearbyEcho where
  location : Location
  type : String
  radius : Rat
deriving DecidableEq, Repr

/-- The JSON envelope each tool handler stringifies into the response
text: `{success, message, count?, searchParams?, results? | placeDetails?
| placeTypes?, usage?}` (fields a handler does not set are absent). -/
structure ToolEnvelope where
  success : Bool
  message : String
  count : Option Nat
  searchParams : Option NearbyEcho
  results : Option (List PlaceSearchResult)
  placeDetails : Option McpPlaceDetails
  placeTypes : Option (List String)
  usage : Option String
deriving DecidableEq, Repr

/-- The content text of a tool response.  The source serializes the
success envelope with `JSON.stringify(env, null, 2)`; the model keeps the
JSON value itself (serialization is runtime glue).  The error branch
produces a plain string. -/
inductive ToolText where
  | envText (env : ToolEnvelope)
  | plainText (s : String)
deriving DecidableEq, Repr

/-- A structured tool response: content text plus the `isError` flag
(absent on success, modelled `false`). -/
structure ToolResponse where
  text : ToolText
  isError : Bool
deriving DecidableEq, Repr

/-- The `SearchParams` assembled by `handleSearchPlaces`:
`{query: args.query, ...(args.location && {location}), ...(args.radius &&
{radius}), ...(args.type && {type})}` — the conditional spreads drop falsy
values (`0`, `""`).  (`args.query` is schema-required; `getD ""` models
the unchecked cast.) -/
def mcpSearchParams (args : ToolArgs) : SearchParams :=
  { query := args.query.getD ""
    location := args.location
    radius :=
      match args.radius with
      | none => none
      | some r => if r = 0 then none else some r
    type :=
      match args.type with
      | none => none
      | some t => if t = "" then none else some t }

/-- Embedding of `handleSearchPlaces`: calls
`placesService.searchPlaces(searchParams)` (outcome passed as an oracle)
and wraps the results; the map over `results` copies exactly the
`PlaceSearchResult` fields, i.e. it is the identity projection. -/
def handleSearchPlaces (args : ToolArgs)
    (svc : Except JsError (List PlaceSearchResult)) :
    Except JsError ToolResponse :=
  match svc with
  | .error e => .error e
  | .ok results =>
    .ok
      { text := .envText
          { success := true
            message := "Found " ++ toString results.length ++ " places for \""
              ++ args.query.getD "" ++ "\""
            count := some results.length
            searchParams := none
            results := some results
            placeDetails := none
            placeTypes := none
            usage := none }
        isError := false }

/-- The effective radius computed by `handleFindNearbyPlaces`:
`const radius = args.radius || 5000;`. -/
def mcpNearbyRadius (args : ToolArgs) : Rat :=
  jsOrRat args.radius 5000

/-- The adapter call `handleFindNearbyPlaces` makes:
`findNearbyPlaces(args.location, args.type, radius)`, whose request
shaping is `buildNearbyRequest`.  (`location`/`type` are schema-required;
`getD` models the unchecked cast.) -/
def mcpNearbyRequest (args : ToolArgs) : NearbySearchRequest :=
  buildNearbyRequest (args.location.getD ⟨0, 0⟩) (args.type.getD "")
    (some (mcpNearbyRadius args))

/-- Embedding of `handleFindNearbyPlaces`: wraps the adapter results with
the `searchParams` echo `{location, type, radius}`. -/
def handleFindNearbyPlaces (args : ToolArgs)
    (svc : Except JsError (List PlaceSearchResult)) :
    Except JsError ToolResponse :=
  match svc with
  | .error e => .error e
  | .ok results =>
    .ok
      { text := .envText
          { success := true
            message := "Found " ++ toString results.length ++ " "
              ++ args.type.getD "" ++ " places nearby"
            count := some results.length
            searchParams := some
              { location := args.location.getD ⟨0, 0⟩
                type := args.type.getD ""
                radius := mcpNearbyRadius args }
            results := some results
            placeDetails := none
            placeTypes := none
            usage := none }
        isError := false }

/-- Embedding of `handleGetPlaceDetails`: calls
`placesService.getPlaceDetails(args.placeId)` and wraps the re-projected
details. -/
def handleGetPlaceDetails (svc : Except JsError PlaceDetails) :
    Except JsError ToolResponse :=
  match svc with
  | .error e => .error e
  | .ok placeDetails =>
    .ok
      { text := .envText
          { success := true
            message := "Details for " ++ placeDetails.name
            count := none
            searchParams := none
            results := none
            placeDetails := some (mcpDetailsPayload placeDetails)
            placeTypes := none
            usage := none }
        isError := false }

/-- Embedding of `handleGetPlaceTypes` (no service call; never fails). -/
def handleGetPlaceTypes : ToolResponse :=
  { text := .envText
      { success := true
        message := "Available place types for AI agent searches"
        count := some commonTypes.length
        searchParams := none
        results := none
        placeDetails := none
        placeTypes := some commonTypes
        usage := some "Use these types with find_nearby_places or as type filter in search_places" }
    isError := false }

/-- The `switch (name)` body of the `CallToolRequestSchema` handler, up to
but not including the surrounding `try`/`catch`: each case awaits its
handler (service outcomes passed as oracles); the `default` case throws
`new Error('Unknown tool: <name>')`. -/
def runTool (name : String) (args : ToolArgs)
    (svcSearch svcNearby : Except JsError (List PlaceSearchResult))
    (svcDetails : Except JsError PlaceDetails) :
    Except JsError ToolResponse :=
  if name = "search_places" then handleSearchPlaces args svcSearch
  else if name = "find_nearby_places" then handleFindNearbyPlaces args svcNearby
  else if name = "get_place_details" then handleGetPlaceDetails svcDetails
  else if name = "get_place_types" then .ok handleGetPlaceTypes
  else .error ⟨some ("Unknown tool: " ++ name), none, "Error"⟩

/-- The full `CallToolRequestSchema` handler: the `catch` turns any thrown
error into an error-flagged textual response
`Error executing <name>: <message>` (with `'Unknown error occurred'` for a
non-`Error` throwable) instead of raising to the transport — the model is
a total function, so nothing propagates. -/
def callTool (name : String) (args : ToolArgs)
    (svcSearch svcNearby : Except JsError (List PlaceSearchResult))
    (svcDetails : Except JsError PlaceDetails) : ToolResponse :=
  match runTool name args svcSearch svcNearby svcDetails with
  | .ok r => r
  | .error e =>
    { text := .plainText ("Error executing " ++ name ++ ": "
        ++ e.message.getD "Unknown error occurred")
      isError := true }

/-! ## Concrete example inputs used by witnesses and counterexamples -/

/-- A provider place with no id and no resource name but a four-photo
gallery (photos carry resource names). -/
def fourPhotoPlace : ProviderPlace :=
  { emptyProviderPlace with
    id := some "p1"
    photos := some
      [ ⟨some "places/p1/photos/a", none⟩, ⟨some "places/p1/photos/b", none⟩,
        ⟨some "places/p1/photos/c", none⟩, ⟨some "places/p1/photos/d", none⟩ ] }

/-- A provider place whose only identity source is the resource name. -/
def idFallbackPlace : ProviderPlace :=
  { emptyProviderPlace with name := some "places/abc123" }

/-- A review with every field present (for bulk witnesses). -/
def sampleReview (author : String) : ProviderReview :=
  ⟨some 4, some ⟨some "nice"⟩, some ⟨some author⟩, some "2024-01-01T00:00:00Z"⟩

/-- A photo with a resource name (for bulk witnesses). -/
def samplePhoto (tag : String) : ProviderPhoto :=
  ⟨some ("places/p2/photos/" ++ tag), none⟩

/-- A provider detail response with 8 reviews and 9 photos. -/
def richDetailPlace : ProviderPlace :=
  { emptyProviderPlace with
    id := some "p2"
    reviews := some
      [ sampleReview "a1", sampleReview "a2", sampleReview "a3",
        sampleReview "a4", sampleReview "a5", sampleReview "a6",
        sampleReview "a7", sampleReview "a8" ]
    photos := some
      [ samplePhoto "1", samplePhoto "2", samplePhoto "3", samplePhoto "4",
        samplePhoto "5", samplePhoto "6", samplePhoto "7", samplePhoto "8",
        samplePhoto "9" ] }

/-! ## Claim theorems -/

/-- C1: the claim states that `GET /api/places/types` is handled by the
static types route.  It is not: the router registers `GET /:placeId`
before `GET /types`, and Express dispatches to the first matching route,
so the request reaches the place-detail handler with `placeId = "types"`
(which calls `placesService.getPlaceDetails("types")`, a provider call).
The static 29-entry route is registered but shadowed. -/
theorem types_request_dispatches_to_place_detail :
    dispatchRoute .get ["types"] = some .placeDetailH ∧
    dispatchRoute .get ["types"] ≠ some .typesH ∧
    extractParams [.par "placeId"] ["types"] = [("placeId", "types")] ∧
    (Method.get, [PathSeg.lit "types"], RouteHandler.typesH) ∈ placesRoutes ∧
    commonTypes.length = 29 := by
  refine ⟨by decide, by decide, by decide, by decide, by decide⟩

/-- C2: a provider failure carrying a quota signal (message containing
"quota" and code `OVER_QUERY_LIMIT`) is re-raised by the adapter as the
generic `Error('Failed to search places')`, whose message carries no
quota marker and no code — so `errorHandler` classifies it as 500
`INTERNAL_ERROR`, not 429 `QUOTA_EXCEEDED`.  The final conjunct shows the
handler's quota branch itself is correct: it fires on the original error,
which it never receives through the adapter. -/
theorem quota_signal_lost_through_adapter :
    searchRoute ⟨"pizza", none, none, none⟩
        (.error ⟨some "quota exceeded for this project",
          some "OVER_QUERY_LIMIT", "Error"⟩) =
      .failure ⟨500, "Internal server error occurred.", "INTERNAL_ERROR"⟩ ∧
    errorHandler ⟨some "quota exceeded for this project",
        some "OVER_QUERY_LIMIT", "Error"⟩ =
      ⟨429, "API quota exceeded. Please try again later.", "QUOTA_EXCEEDED"⟩ := by
  refine ⟨by decide, by decide⟩

/-- C4 counterexample: the claim says every normalized result has a
non-empty `id`; but `place.id || place.name?.split('/').pop()` is
`undefined` when the provider place carries neither an id nor a resource
name, so normalization yields a result with no id at all. -/
theorem empty_place_normalizes_to_absent_id :
    (formatSearchResults [emptyProviderPlace]).map PlaceSearchResult.id =
      [none] := by
  decide

/-- C4 amended: normalization is total, `name`/`address`/`location`
default as claimed, `name` and `address` are always non-empty, and `id`
is non-empty provided the provider supplies a non-empty `id` or a
resource name with a non-empty trailing segment (otherwise it is
absent). -/
theorem normalization_defaults_hold (place : ProviderPlace) :
    ((∃ s, place.id = some s ∧ s ≠ "") ∨
      (∃ t, lastSegment place.name = some t ∧ t ≠ "") →
      ∃ s, (formatSearchResult place).id = some s ∧ s ≠ "") ∧
    (formatSearchResult place).name ≠ "" ∧
    (formatSearchResult place).address ≠ "" ∧
    (place.displayName = none → (formatSearchResult place).name = "Unknown") ∧
    (place.formattedAddress = none →
      (formatSearchResult place).address = "Address not available") ∧
    (place.location = none →
      (formatSearchResult place).location = ⟨0, 0⟩) := by
  refine ⟨?_, ?_, ?_, ?_, ?_, ?_⟩
  · rintro (⟨s, hs, hne⟩ | ⟨t, ht, hne⟩)
    · exact ⟨s, by simp [formatSearchResult, jsOrOptStr, hs, hne], hne⟩
    · cases hid : place.id with
      | none =>
        exact ⟨t, by simp [formatSearchResult, jsOrOptStr, hid, ht], hne⟩
      | some s =>
        by_cases hse : s = ""
        · exact ⟨t, by simp [formatSearchResult, jsOrOptStr, hid, hse, ht], hne⟩
        · exact ⟨s, by simp [formatSearchResult, jsOrOptStr, hid, hse], hse⟩
  · simp only [formatSearchResult, jsOrStr]
    cases place.displayName.bind (·.text) with
    | none => simp
    | some s => by_cases hse : s = "" <;> simp [hse]
  · simp only [formatSearchResult, jsOrStr]
    cases place.formattedAddress with
    | none => simp
    | some s => by_cases hse : s = "" <;> simp [hse]
  · intro h; simp [formatSearchResult, jsOrStr, h]
  · intro h; simp [formatSearchResult, jsOrStr, h]
  · intro h; simp [formatSearchResult, jsOrRat, h]

/-- C4 amended, witness: a provider place whose only identity source is
the resource name `places/abc123` gets the non-empty id `abc123`, and all
the defaults fire. -/
theorem normalization_defaults_hold_witness :
    (∃ s, (formatSearchResult idFallbackPlace).id = some s ∧ s ≠ "") ∧
    (formatSearchResult idFallbackPlace).name = "Unknown" ∧
    (formatSearchResult idFallbackPlace).address = "Address not available" ∧
    (formatSearchResult idFallbackPlace).location = ⟨0, 0⟩ := by
  have h := normalization_defaults_hold idFallbackPlace
  exact ⟨h.1 (Or.inr ⟨"abc123", by decide, by decide⟩),
    h.2.2.2.1 (by decide), h.2.2.2.2.1 (by decide), h.2.2.2.2.2 (by decide)⟩

/-- C10: `formatPlaceDetails` always defines `openingHours`, `reviews`
and `photos` (fields the `PlaceDetails` interface declares optional) as
arrays — the `|| []` defaults make a provider response with none of them
yield empty arrays, never absent fields. -/
theorem details_collections_always_defined (apiKey : String)
    (place : ProviderPlace) :
    (formatPlaceDetails apiKey place).openingHours.isSome ∧
    (formatPlaceDetails apiKey place).reviews.isSome ∧
    (formatPlaceDetails apiKey place).photos.isSome ∧
    (place.currentOpeningHours = none →
      (formatPlaceDetails apiKey place).openingHours = some []) ∧
    (place.reviews = none → (formatPlaceDetails apiKey place).reviews = some []) ∧
    (place.photos = none → (formatPlaceDetails apiKey place).photos = some []) := by
  refine ⟨by simp [formatPlaceDetails], by simp [formatPlaceDetails],
    by simp [formatPlaceDetails], ?_, ?_, ?_⟩
  · intro h; simp [formatPlaceDetails, h]
  · intro h; simp [formatPlaceDetails, h]
  · intro h; simp [formatPlaceDetails, h]

/-- C10 witness: the all-absent provider place yields empty arrays for
all three collections. -/
theorem details_collections_always_defined_witness :
    (formatPlaceDetails "KEY" emptyProviderPlace).openingHours = some [] ∧
    (formatPlaceDetails "KEY" emptyProviderPlace).reviews = some [] ∧
    (formatPlaceDetails "KEY" emptyProviderPlace).photos = some [] := by
  have h := details_collections_always_defined "KEY" emptyProviderPlace
  exact ⟨h.2.2.2.1 rfl, h.2.2.2.2.1 rfl, h.2.2.2.2.2 rfl⟩

/-- C5: detail normalization keeps exactly the first `min 5 n` reviews
and `min 5 m` photos in provider order, each review re-shaped with text
defaulting to `""` and author to `"Anonymous"` (rating and time passed
through), and each kept photo turned into the fully-qualified media URL
templated from its resource name, the fixed 400x400 size bound, and the
service credential. -/
theorem detail_truncation_and_reshaping (apiKey : String)
    (place : ProviderPlace) :
    (formatPlaceDetails apiKey place).reviews =
      some (((place.reviews.getD []).take 5).map shapeReview) ∧
    ((formatPlaceDetails apiKey place).reviews.getD []).length =
      min 5 (place.reviews.getD []).length ∧
    (formatPlaceDetails apiKey place).photos =
      some (((place.photos.getD []).take 5).map (photoUrl apiKey)) ∧
    ((formatPlaceDetails apiKey place).photos.getD []).length =
      min 5 (place.photos.getD []).length ∧
    (∀ r : ProviderReview,
      (shapeReview r).rating = r.rating ∧
      (shapeReview r).time = r.publishTime ∧
      (r.text = none → (shapeReview r).text = "") ∧
      (r.authorAttribution = none → (shapeReview r).author = "Anonymous")) ∧
    (∀ (ph : ProviderPhoto) (s : String), ph.name = some s → s ≠ "" →
      photoUrl apiKey ph =
        "https://places.googleapis.com/v1/" ++ s
          ++ "/media?maxHeightPx=400&maxWidthPx=400&key=" ++ apiKey) := by
  have hrev : (formatPlaceDetails apiKey place).reviews =
      some (((place.reviews.getD []).take 5).map shapeReview) := by
    cases h : place.reviews <;> simp [formatPlaceDetails, h]
  have hpho : (formatPlaceDetails apiKey place).photos =
      some (((place.photos.getD []).take 5).map (photoUrl apiKey)) := by
    cases h : place.photos <;> simp [formatPlaceDetails, h]
  refine ⟨hrev, ?_, hpho, ?_, ?_, ?_⟩
  · rw [hrev]; simp [List.length_take]
  · rw [hpho]; simp [List.length_take]
  · intro r
    refine ⟨rfl, rfl, ?_, ?_⟩
    · intro h; simp [shapeReview, jsOrStr, h]
    · intro h; simp [shapeReview, jsOrStr, h]
  · intro ph s hname hne
    simp [photoUrl, jsOrOptStr, jsInterp, hname, hne]

/-- C5 witness: a provider response with 8 reviews and 9 photos
normalizes to exactly 5 reviews and 5 photos, and a named photo yields
the templated media URL. -/
theorem detail_truncation_and_reshaping_witness :
    ((formatPlaceDetails "KEY" richDetailPlace).reviews.getD []).length = 5 ∧
    ((formatPlaceDetails "KEY" richDetailPlace).photos.getD []).length = 5 ∧
    photoUrl "KEY" ⟨some "places/p2/photos/1", none⟩ =
      "https://places.googleapis.com/v1/places/p2/photos/1/media?maxHeightPx=400&maxWidthPx=400&key=KEY" := by
  have h := detail_truncation_and_reshaping "KEY" richDetailPlace
  refine ⟨?_, ?_, ?_⟩
  · rw [h.2.1]; decide
  · rw [h.2.2.2.1]; decide
  · have hu := h.2.2.2.2.2 ⟨some "places/p2/photos/1", none⟩
      "places/p2/photos/1" rfl (by decide)
    rw [hu]; decide

/-- C6: for every `SearchParams` accepted by `validateSearchParams`, the
outbound text-search request carries the free-text query and
`maxResultCount` 10; it has no location bias at all when `location` is
omitted, a location-bias circle with the given center and the given
radius (5000 when omitted) when `location` is present, and the type
filter exactly when `type` is present (a valid present type is
non-empty, hence truthy). -/
theorem text_search_request_shape (params : SearchParams)
    (hv : validateSearchParams params = none) :
    (buildTextSearchRequest params).textQuery = params.query ∧
    (buildTextSearchRequest params).maxResultCount = 10 ∧
    (params.location = none →
      (buildTextSearchRequest params).locationBias = none) ∧
    (∀ loc, params.location = some loc →
      (buildTextSearchRequest params).locationBias =
        some ⟨loc, params.radius.getD 5000⟩) ∧
    (∀ t, params.type = some t →
      (buildTextSearchRequest params).includedType = some t) := by
  refine ⟨rfl, rfl, ?_, ?_, ?_⟩
  · intro h; simp [buildTextSearchRequest, h]
  · intro loc h; simp [buildTextSearchRequest, h]
  · intro t ht
    have hne : t ≠ "" := by
      intro he
      rw [he] at ht
      unfold validateSearchParams at hv
      rw [ht] at hv
      split at hv
      · exact absurd hv (by simp)
      · split at hv
        · exact absurd hv (by simp)
        · split at hv
          · exact absurd hv (by simp)
          · split at hv
            · exact absurd hv (by simp)
            · next hc => exact hc (by decide)
    simp [buildTextSearchRequest, ht, hne]

/-- C6 witness: a valid search with a location, no radius and a type gets
bias radius 5000 and the type filter; the same query with no location
gets no bias. -/
theorem text_search_request_shape_witness :
    (buildTextSearchRequest
        ⟨"pizza", some ⟨40, -74⟩, none, some "restaurant"⟩).locationBias =
      some ⟨⟨40, -74⟩, 5000⟩ ∧
    (buildTextSearchRequest
        ⟨"pizza", some ⟨40, -74⟩, none, some "restaurant"⟩).includedType =
      some "restaurant" ∧
    (buildTextSearchRequest ⟨"pizza", none, none, none⟩).locationBias =
      none := by
  have h1 := text_search_request_shape
    ⟨"pizza", some ⟨40, -74⟩, none, some "restaurant"⟩ (by decide)
  have h2 := text_search_request_shape ⟨"pizza", none, none, none⟩ (by decide)
  exact ⟨h1.2.2.2.1 ⟨40, -74⟩ rfl, h1.2.2.2.2 "restaurant" rfl, h2.2.2.1 rfl⟩

/-- C7: with `radius` omitted, every surface ends up with an outbound
location-restriction circle of radius exactly 5000: the HTTP nearby route
(destructuring default `radius = 5000`), the tool handler
(`args.radius || 5000`), and the adapter method (defaulted parameter). -/
theorem nearby_radius_defaults_to_5000 (body : NearbyBody) (args : ToolArgs)
    (location : Location) (type : String)
    (hb : body.radius = none) (ha : args.radius = none) :
    (∀ req, httpNearbyRequest body = some req →
      req.locationRestriction.radius = 5000) ∧
    mcpNearbyRadius args = 5000 ∧
    (mcpNearbyRequest args).locationRestriction.radius = 5000 ∧
    (buildNearbyRequest location type none).locationRestriction.radius =
      5000 := by
  refine ⟨?_, ?_, ?_, rfl⟩
  · intro req hreq
    unfold httpNearbyRequest at hreq
    cases h : validateLocationParams body with
    | some msg => rw [h] at hreq; exact absurd hreq (by simp)
    | none =>
      rw [h] at hreq
      injection hreq with hreq
      rw [← hreq]
      simp [buildNearbyRequest, hb]
  · simp [mcpNearbyRadius, jsOrRat, ha]
  · simp [mcpNearbyRequest, buildNearbyRequest, mcpNearbyRadius, jsOrRat, ha]

/-- C7 witness: a nearby body and tool args with no radius both produce a
5000-radius restriction circle, as does the adapter with the argument
omitted. -/
theorem nearby_radius_defaults_to_5000_witness :
    (∃ req, httpNearbyRequest ⟨some ⟨40, -74⟩, some "restaurant", none⟩ =
      some req ∧ req.locationRestriction.radius = 5000) ∧
    (mcpNearbyRequest emptyToolArgs).locationRestriction.radius = 5000 ∧
    (buildNearbyRequest ⟨40, -74⟩ "restaurant" none).locationRestriction.radius =
      5000 := by
  have h := nearby_radius_defaults_to_5000
    ⟨some ⟨40, -74⟩, some "restaurant", none⟩ emptyToolArgs
    ⟨40, -74⟩ "restaurant" rfl rfl
  refine ⟨⟨buildNearbyRequest ⟨40, -74⟩ "restaurant" (some 5000), ?_, ?_⟩,
    h.2.2.1, h.2.2.2⟩
  · decide
  · exact h.1 _ (by decide)

/-- C8: a nearby request whose location is out of range (latitude outside
[-90, 90] or longitude outside [-180, 180]) is rejected by
`validateLocationParams` with the 400 field-level message, the route
outcome is that 400 for every possible provider behaviour (so the
provider is never consulted), and no outbound request is formed. -/
theorem out_of_range_location_rejected (body : NearbyBody) (loc : Location)
    (hl : body.location = some loc)
    (hrange : loc.lat < -90 ∨ loc.lat > 90 ∨ loc.lng < -180 ∨ loc.lng > 180) :
    validateLocationParams body =
      some "Valid location with lat and lng properties is required" ∧
    (∀ provider, nearbyRoute body provider =
      .clientError 400 "Valid location with lat and lng properties is required") ∧
    httpNearbyRequest body = none := by
  have hbad : isValidLocation loc = false := by
    simp only [isValidLocation, Bool.and_eq_false_iff, decide_eq_false_iff_not,
      not_le]
    rcases hrange with h | h | h | h
    · exact Or.inl (Or.inl (Or.inl h))
    · exact Or.inl (Or.inl (Or.inr h))
    · exact Or.inl (Or.inr h)
    · exact Or.inr h
  have hv : validateLocationParams body =
      some "Valid location with lat and lng properties is required" := by
    unfold validateLocationParams
    rw [hl]
    simp [hbad]
  refine ⟨hv, ?_, ?_⟩
  · intro provider
    unfold nearbyRoute
    rw [hv]
  · unfold httpNearbyRequest
    rw [hv]

/-- C8 witness: `{location: {lat: 200, lng: 0}, type: "restaurant"}` is
rejected with the 400 message regardless of the provider, and no outbound
request is built. -/
theorem out_of_range_location_rejected_witness :
    validateLocationParams ⟨some ⟨200, 0⟩, some "restaurant", none⟩ =
      some "Valid location with lat and lng properties is required" ∧
    nearbyRoute ⟨some ⟨200, 0⟩, some "restaurant", none⟩ (.ok ⟨none⟩) =
      .clientError 400 "Valid location with lat and lng properties is required" ∧
    httpNearbyRequest ⟨some ⟨200, 0⟩, some "restaurant", none⟩ = none := by
  have h := out_of_range_location_rejected
    ⟨some ⟨200, 0⟩, some "restaurant", none⟩ ⟨200, 0⟩ rfl
    (Or.inr (Or.inl (by norm_num)))
  exact ⟨h.1, h.2.1 (.ok ⟨none⟩), h.2.2⟩

/-- C3 counterexample: the two shells are not field-for-field identical.
For a provider response with four photos, `GET /api/places/:placeId`
delivers the adapter's `PlaceDetails` unchanged (four photo URLs), while
the `get_place_details` tool handler re-slices `photos` to the first 3
(`placeDetails.photos?.slice(0, 3)`), so the delivered photo lists
differ. -/
theorem details_shells_photo_count_mismatch :
    placeDetailRoute "KEY" "p1" (.ok fourPhotoPlace) =
      .success ⟨formatPlaceDetails "KEY" fourPhotoPlace, "Details for Unknown"⟩ ∧
    ((formatPlaceDetails "KEY" fourPhotoPlace).photos.getD []).length = 4 ∧
    ((mcpDetailsPayload (formatPlaceDetails "KEY" fourPhotoPlace)).photos.getD
      []).length = 3 ∧
    (mcpDetailsPayload (formatPlaceDetails "KEY" fourPhotoPlace)).photos ≠
      (formatPlaceDetails "KEY" fourPhotoPlace).photos := by
  refine ⟨by decide, by decide, by decide, by decide⟩

/-- C3 amended: for the same placeId and the same provider response, the
tool shell's place details agree with the HTTP shell's field for field —
including the same reviews (its `slice(0, 5)` is a no-op on the adapter's
already-truncated list) — except that `photos` is further truncated to
the first 3; the outputs agree in full whenever the adapter delivers at
most 3 photos. -/
theorem mcp_details_equal_http_except_photos (apiKey : String)
    (place : ProviderPlace) :
    (mcpDetailsPayload (formatPlaceDetails apiKey place)).id =
      (formatPlaceDetails apiKey place).id ∧
    (mcpDetailsPayload (formatPlaceDetails apiKey place)).name =
      (formatPlaceDetails apiKey place).name ∧
    (mcpDetailsPayload (formatPlaceDetails apiKey place)).address =
      (formatPlaceDetails apiKey place).address ∧
    (mcpDetailsPayload (formatPlaceDetails apiKey place)).location =
      (formatPlaceDetails apiKey place).location ∧
    (mcpDetailsPayload (formatPlaceDetails apiKey place)).rating =
      (formatPlaceDetails apiKey place).rating ∧
    (mcpDetailsPayload (formatPlaceDetails apiKey place)).priceLevel =
      (formatPlaceDetails apiKey place).priceLevel ∧
    (mcpDetailsPayload (formatPlaceDetails apiKey place)).types =
      (formatPlaceDetails apiKey place).types ∧
    (mcpDetailsPayload (formatPlaceDetails apiKey place)).isOpen =
      (formatPlaceDetails apiKey place).isOpen ∧
    (mcpDetailsPayload (formatPlaceDetails apiKey place)).phoneNumber =
      (formatPlaceDetails apiKey place).phoneNumber ∧
    (mcpDetailsPayload (formatPlaceDetails apiKey place)).website =
      (formatPlaceDetails apiKey place).website ∧
    (mcpDetailsPayload (formatPlaceDetails apiKey place)).openingHours =
      (formatPlaceDetails apiKey place).openingHours ∧
    (mcpDetailsPayload (formatPlaceDetails apiKey place)).reviews =
      (formatPlaceDetails apiKey place).reviews ∧
    (mcpDetailsPayload (formatPlaceDetails apiKey place)).photos =
      ((formatPlaceDetails apiKey place).photos.map (fun l => l.take 3)) ∧
    (((formatPlaceDetails apiKey place).photos.getD []).length ≤ 3 →
      (mcpDetailsPayload (formatPlaceDetails apiKey place)).photos =
        (formatPlaceDetails apiKey place).photos) := by
  refine ⟨rfl, rfl, rfl, rfl, rfl, rfl, rfl, rfl, rfl, rfl, rfl, ?_, rfl, ?_⟩
  · cases h : place.reviews with
    | none => simp [formatPlaceDetails, mcpDetailsPayload, h]
    | some l =>
      simp [formatPlaceDetails, mcpDetailsPayload, h, List.map_take,
        List.take_take]
  · intro hlen
    cases h : (formatPlaceDetails apiKey place).photos with
    | none => simp [mcpDetailsPayload, h]
    | some l =>
      rw [h] at hlen
      simp only [Option.getD_some] at hlen
      simp [mcpDetailsPayload, h, List.take_of_length_le hlen]

/-- C3 amended, witness: on a provider response with no photos the two
shells' outputs coincide exactly. -/
theorem mcp_details_equal_http_except_photos_witness :
    (mcpDetailsPayload (formatPlaceDetails "KEY" emptyProviderPlace)).photos =
      (formatPlaceDetails "KEY" emptyProviderPlace).photos ∧
    (mcpDetailsPayload (formatPlaceDetails "KEY" emptyProviderPlace)).reviews =
      (formatPlaceDetails "KEY" emptyProviderPlace).reviews := by
  have h := mcp_details_equal_http_except_photos "KEY" emptyProviderPlace
  exact ⟨h.2.2.2.2.2.2.2.2.2.2.2.2.2 (by decide), h.2.2.2.2.2.2.2.2.2.2.2.1⟩

/-- C9: the tool dispatcher never raises to the transport (the embedded
`callTool` is total): a handler failure — including an unknown tool
name — is returned as an error-flagged response whose text is
`Error executing <name>: <message>`, and a handler success is returned
as-is: a non-error textual JSON envelope with `success: true`, a
`message`, and the operation's payload
(`results`, `placeDetails` or `placeTypes`). -/
theorem tool_dispatch_wraps_failures (name : String) (args : ToolArgs)
    (svcSearch svcNearby : Except JsError (List PlaceSearchResult))
    (svcDetails : Except JsError PlaceDetails) :
    (∀ e, runTool name args svcSearch svcNearby svcDetails = .error e →
      callTool name args svcSearch svcNearby svcDetails =
        ⟨.plainText ("Error executing " ++ name ++ ": "
          ++ e.message.getD "Unknown error occurred"), true⟩) ∧
    (name ≠ "search_places" → name ≠ "find_nearby_places" →
      name ≠ "get_place_details" → name ≠ "get_place_types" →
      callTool name args svcSearch svcNearby svcDetails =
        ⟨.plainText ("Error executing " ++ name ++ ": "
          ++ ("Unknown tool: " ++ name)), true⟩) ∧
    (∀ r, runTool name args svcSearch svcNearby svcDetails = .ok r →
      callTool name args svcSearch svcNearby svcDetails = r ∧
      r.isError = false ∧
      ∃ env, r.text = .envText env ∧ env.success = true ∧
        (env.results.isSome ∨ env.placeDetails.isSome ∨
          env.placeTypes.isSome)) := by
  refine ⟨?_, ?_, ?_⟩
  · intro e he
    simp [callTool, he]
  · intro h1 h2 h3 h4
    simp [callTool, runTool, h1, h2, h3, h4]
  · intro r hr
    refine ⟨by simp [callTool, hr], ?_⟩
    by_cases h1 : name = "search_places"
    · cases svcSearch with
      | error e => simp [runTool, h1, handleSearchPlaces] at hr
      | ok results =>
        simp [runTool, h1, handleSearchPlaces] at hr
        subst hr
        exact ⟨rfl, _, rfl, rfl, Or.inl (by simp)⟩
    · by_cases h2 : name = "find_nearby_places"
      · cases svcNearby with
        | error e => simp [runTool, h1, h2, handleFindNearbyPlaces] at hr
        | ok results =>
          simp [runTool, h1, h2, handleFindNearbyPlaces] at hr
          subst hr
          exact ⟨rfl, _, rfl, rfl, Or.inl (by simp)⟩
      · by_cases h3 : name = "get_place_details"
        · cases svcDetails with
          | error e => simp [runTool, h1, h2, h3, handleGetPlaceDetails] at hr
          | ok pd =>
            simp [runTool, h1, h2, h3, handleGetPlaceDetails] at hr
            subst hr
            exact ⟨rfl, _, rfl, rfl, Or.inr (Or.inl (by simp))⟩
        · by_cases h4 : name = "get_place_types"
          · simp [runTool, h1, h2, h3, h4] at hr
            subst hr
            exact ⟨rfl, _, rfl, rfl,
              Or.inr (Or.inr (by simp [handleGetPlaceTypes]))⟩
          · simp [runTool, h1, h2, h3, h4] at hr

/-- C9 witness: an unknown tool name and a failing search handler both
come back as error-flagged textual responses instead of raised errors. -/
theorem tool_dispatch_wraps_failures_witness :
    callTool "bogus" emptyToolArgs (.ok []) (.ok [])
        (.error ⟨none, none, "Error"⟩) =
      ⟨.plainText ("Error executing " ++ "bogus" ++ ": "
        ++ ("Unknown tool: " ++ "bogus")), true⟩ ∧
    callTool "search_places" emptyToolArgs
        (.error ⟨some "Failed to search places", none, "Error"⟩) (.ok [])
        (.error ⟨none, none, "Error"⟩) =
      ⟨.plainText ("Error executing " ++ "search_places" ++ ": "
        ++ "Failed to search places"), true⟩ := by
  have h1 := (tool_dispatch_wraps_failures "bogus" emptyToolArgs (.ok [])
    (.ok []) (.error ⟨none, none, "Error"⟩)).2.1
    (by decide) (by decide) (by decide) (by decide)
  have h2 := (tool_dispatch_wraps_failures "search_places" emptyToolArgs
    (.error ⟨some "Failed to search places", none, "Error"⟩) (.ok [])
    (.error ⟨none, none, "Error"⟩)).1
    ⟨some "Failed to search places", none, "Error"⟩ rfl
  exact ⟨h1, by simpa using h2⟩
